import Mathlib

/-!
Shallow embedding of the schema-validation core of a cloud database emulator:
the column / key-column update validators
(`backend/schema/validators/column_validator.cc`) and the query catalog's
sub-catalog lookup (`backend/query/catalog.cc`), together with proofs of the
behavioural properties stated about them.
-/

namespace SpannerEmulator

/-- The column type universe (zetasql types as used by the emulator):
scalars, proto/enum types carrying their fully-qualified descriptor name,
and arrays over an element type. `Equals` on zetasql types is structural
equality, embedded as decidable equality of this inductive. -/
inductive ZType where
  | string
  | bytes
  | int64
  | bool
  | timestamp
  | float64
  | date
  | numeric
  | json
  | proto (fullName : String)
  | enum (fullName : String)
  | array (element : ZType)
deriving DecidableEq, Repr

namespace ZType

/-- Embeds `Type::IsString()`. -/
@[simp] def isString : ZType → Bool
  | .string => true
  | _ => false

/-- Embeds `Type::IsBytes()`. -/
@[simp] def isBytes : ZType → Bool
  | .bytes => true
  | _ => false

/-- Embeds `Type::IsInt64()`. -/
@[simp] def isInt64 : ZType → Bool
  | .int64 => true
  | _ => false

/-- Embeds `Type::IsProto()`. -/
@[simp] def isProto : ZType → Bool
  | .proto _ => true
  | _ => false

/-- Embeds `Type::IsEnum()`. -/
@[simp] def isEnum : ZType → Bool
  | .enum _ => true
  | _ => false

/-- Embeds `Type::IsArray()`. -/
@[simp] def isArray : ZType → Bool
  | .array _ => true
  | _ => false

/-- Embeds `Type::IsTimestamp()`. -/
@[simp] def isTimestamp : ZType → Bool
  | .timestamp => true
  | _ => false

end ZType

/-- Modelled from the spec: `BaseType` (from `backend/datamodel/types.h`, whose
definition is not among the provided sources) returns the element type of an
array type and the type itself otherwise ("For arrays, recurse on the element
type"). -/
def BaseType : ZType → ZType
  | .array element => element
  | t => t

/-- Embeds `IsResizeable` from `column_validator.cc`: true exactly for STRING and
BYTES. -/
def IsResizeable (type : ZType) : Bool :=
  if type.isString || type.isBytes then true else false

/-- Embeds `IsAllowedTypeChange` from `column_validator.cc`: identical types are
legal; array-ness must match; arrays recurse on the element (base) type;
the scalar conversions allowed are STRING↔BYTES, PROTO↔BYTES, PROTO↔PROTO,
ENUM↔ENUM and ENUM↔INT64. -/
def IsAllowedTypeChange : ZType → ZType → Bool
  | old_column_type, new_column_type =>
    if old_column_type = new_column_type then
      true
    else if old_column_type.isArray != new_column_type.isArray then
      false
    else
      match old_column_type, new_column_type with
      | .array old_element, .array new_element =>
        IsAllowedTypeChange old_element new_element
      | old_column_type, new_column_type =>
        -- Conversions from BYTES to STRING and STRING to BYTES.
        (new_column_type.isString && old_column_type.isBytes) ||
        (new_column_type.isBytes && old_column_type.isString) ||
        -- Conversions from PROTO to BYTES and BYTES to PROTO.
        (new_column_type.isProto && old_column_type.isBytes) ||
        (new_column_type.isBytes && old_column_type.isProto) ||
        -- Conversion from PROTO to PROTO or enum to enum.
        (new_column_type.isProto && old_column_type.isProto) ||
        (new_column_type.isEnum && old_column_type.isEnum) ||
        -- Conversion from enum to INT64 and INT64 to enum.
        (new_column_type.isInt64 && old_column_type.isEnum) ||
        (new_column_type.isEnum && old_column_type.isInt64)

/-- Modelled from the spec: `ToString` on types (from
`backend/datamodel/types.h`, not among the provided sources) renders a type
name for error messages; only used as an opaque error payload here. -/
def TypeToString : ZType → String
  | .string => "STRING"
  | .bytes => "BYTES"
  | .int64 => "INT64"
  | .bool => "BOOL"
  | .timestamp => "TIMESTAMP"
  | .float64 => "FLOAT64"
  | .date => "DATE"
  | .numeric => "NUMERIC"
  | .json => "JSON"
  | .proto fullName => fullName
  | .enum fullName => fullName
  | .array element => "ARRAY<" ++ TypeToString element ++ ">"

/-- Modelled from the spec: `limits::kMaxStringColumnLength` (from
`common/limits.h`, not among the provided sources) — the maximum declared
length of a STRING column. -/
def kMaxStringColumnLength : Nat := 2621440

/-- Modelled from the spec: `limits::kMaxBytesColumnLength` (from
`common/limits.h`, not among the provided sources) — the maximum declared
length of a BYTES column. -/
def kMaxBytesColumnLength : Nat := 10485760

/-- A sequence referenced by a column (`sequences_used()` entry): its schema
name (`GetSchemaNameInfo()->name`) and deletion marker. -/
structure SequenceRef where
  name : String
  is_deleted : Bool
deriving DecidableEq, Repr

/-- A change stream explicitly tracking a column
(`change_streams_explicitly_tracking_column()` entry). -/
structure ChangeStreamRef where
  name : String
deriving DecidableEq, Repr

/-- A column reachable through `dependent_columns()`: the columns a generated
column's expression references. Only the identity, name, deletion marker and
commit-timestamp flag of such a column are consulted by the validators. -/
structure DepColumn where
  id : String
  name : String
  is_deleted : Bool
  allows_commit_timestamp : Bool
deriving DecidableEq, Repr

/-- A sibling column as seen through `table()->columns()` during the
dependent-generated-column scan: whether it is generated and the ids of the
columns its expression references. -/
structure SiblingColumn where
  is_generated : Bool
  dependent_column_ids : List String
deriving DecidableEq, Repr

/-- The `owner_index()` of an index data table: index name and the name of the
table it indexes (`indexed_table()->Name()`). -/
structure OwnerIndex where
  name : String
  indexed_table_name : String
deriving DecidableEq, Repr

/-- The slice of a `Table` consulted by the column and key-column validators:
name, deletion marker, row-deletion-policy target column (if any), the parent
table's column names (if interleaved in a parent), each child table's key
column names, the owning index (if this table is index storage), and the
sibling columns. -/
structure TableInfo where
  name : String
  is_deleted : Bool
  row_deletion_policy_column : Option String
  parent_columns : Option (List String)
  children_key_columns : List (List String)
  owner_index : Option OwnerIndex
  columns : List SiblingColumn
deriving DecidableEq, Repr

/-- The `source_column_` of an index data-table column: only its deletion
marker is consulted by `ValidateUpdate`. -/
structure SourceColumn where
  is_deleted : Bool
deriving DecidableEq, Repr

/-- A `Column` schema node as consulted by `ColumnValidator::ValidateUpdate`
and `KeyColumnValidator::ValidateUpdate`. -/
structure Column where
  id : String
  name : String
  type : ZType
  declared_max_length : Option Nat
  is_nullable : Bool
  is_generated : Bool
  expression : Option String
  is_stored : Bool
  allows_commit_timestamp : Bool
  is_deleted : Bool
  table : TableInfo
  source_column : Option SourceColumn
  dependent_columns : List DepColumn
  change_streams_explicitly_tracking_column : List ChangeStreamRef
  sequences_used : List SequenceRef
deriving DecidableEq, Repr

/-- Embeds `Column::FullName()`: table-qualified column name. -/
def Column.FullName (c : Column) : String := c.table.name ++ "." ++ c.name

/-- Modelled from the spec: `Column::effective_max_length()` (from
`backend/schema/catalog/column.h`, not among the provided sources) — the
declared maximum length when present, else the product maximum for the
column's base type ("declared max length (only meaningful for
string/bytes)"). -/
def Column.effective_max_length (c : Column) : Nat :=
  match c.declared_max_length with
  | some l => l
  | none =>
    if (BaseType c.type).isString then kMaxStringColumnLength
    else kMaxBytesColumnLength

/-- The named errors produced by the validators (`common/errors.h` error
constructors), plus `internal` for a failed `ZETASQL_RET_CHECK`. -/
inductive SchemaError where
  | internal
  | rowDeletionPolicyWillBreak (columnName tableName : String)
  | dropColumnWithChangeStream (tableName columnName : String)
      (count : Nat) (changeStreamNames : String)
  | invalidDropColumnReferencedByGeneratedColumn
      (dependentName tableName columnName : String)
  | cannotConvertRegularColumnToGeneratedColumn (tableName columnName : String)
  | cannotConvertGeneratedColumnToRegularColumn (tableName columnName : String)
  | cannotAlterStoredGeneratedColumnDataType (tableName columnName : String)
  | cannotAlterGeneratedColumnExpression (tableName columnName : String)
  | cannotAlterGeneratedColumnStoredAttribute (tableName columnName : String)
  | cannotAlterColumnDataTypeWithDependentStoredGeneratedColumn
      (columnName : String)
  | invalidDropColumnWithDependency
      (columnName indexedTableName indexName : String)
  | cannotChangeColumnType (columnName oldType newType : String)
  | invalidDropSequenceWithColumnDependents (sequenceName columnFullName : String)
  | alteringParentColumn (columnFullName : String)
  | cannotChangeKeyColumnWithChildTables (columnFullName : String)
  | tableNotFound (name : String)
deriving DecidableEq, Repr

/-- A deferred action registered on the validation context
(`SchemaValidationContext::AddAction`), tagged by the verifier/backfill the
registered closure invokes and the values it captures. -/
inductive DeferredAction where
  | verifyColumnLength (tableName columnName : String) (newLength : Nat)
  | verifyColumnNotNull (tableName columnName : String)
  | verifyColumnTypeChange (oldColumnName newColumnName : String)
  | backfillColumnValue (oldColumnName newColumnName : String)
  | verifyColumnCommitTimestamp (tableName columnName : String)
deriving DecidableEq, Repr

/-- Embeds `CheckAllowedColumnTypeChange` from `column_validator.cc`: rejects a
disallowed type change; for an allowed change with equal base types registers
a length verification exactly when the (resizeable) length shrinks; for an
allowed change with differing base types registers a value-compatibility
verification followed by a value-rewrite backfill. Returns the registered
actions in registration order. -/
def CheckAllowedColumnTypeChange (old_column new_column : Column)
    (old_column_type new_column_type : ZType) :
    Except SchemaError (List DeferredAction) :=
  if ¬ IsAllowedTypeChange old_column_type new_column_type then
    .error (.cannotChangeColumnType new_column.name
      (TypeToString old_column_type) (TypeToString new_column_type))
  else
    let old_base_type := BaseType old_column_type
    let new_base_type := BaseType new_column_type
    if new_base_type = old_base_type then
      if IsResizeable old_base_type ∧
          new_column.effective_max_length < old_column.effective_max_length then
        .ok [.verifyColumnLength old_column.table.name old_column.name
          new_column.effective_max_length]
      else
        .ok []
    else
      .ok [.verifyColumnTypeChange old_column.name new_column.name,
           .backfillColumnValue old_column.name new_column.name]

/-- The row-deletion-policy guard of `ColumnValidator::ValidateUpdate`:
the enclosing table has a row-deletion policy naming this column. -/
def hasRowDeletionPolicyOn (t : TableInfo) (columnName : String) : Bool :=
  match t.row_deletion_policy_column with
  | some c => c = columnName
  | none => false

/-- The `source_column_` drop check of `ColumnValidator::ValidateUpdate`:
a source column drop must not cascade onto the referencing index column. -/
def checkSourceColumn (column : Column) : Except SchemaError Unit :=
  match column.source_column with
  | some source =>
    if source.is_deleted then
      match column.table.owner_index with
      | none => .error .internal
      | some oi =>
        .error (.invalidDropColumnWithDependency column.name
          oi.indexed_table_name oi.name)
    else .ok ()
  | none => .ok ()

/-- Embeds `ColumnValidator::ValidateUpdate` from `column_validator.cc`, with the
actions registered on the validation context returned in registration order
on success. -/
def ColumnValidator.ValidateUpdate (column old_column : Column) :
    Except SchemaError (List DeferredAction) :=
  let has_row_deletion_policy := hasRowDeletionPolicyOn column.table column.name
  if has_row_deletion_policy ∧ ¬column.table.is_deleted ∧
      (column.is_deleted ∨ ¬column.type.isTimestamp) then
    .error (.rowDeletionPolicyWillBreak column.name column.table.name)
  else if ¬column.change_streams_explicitly_tracking_column.isEmpty ∧
      column.is_deleted then
    .error (.dropColumnWithChangeStream column.table.name column.name
      column.change_streams_explicitly_tracking_column.length
      (String.join
        (column.change_streams_explicitly_tracking_column.map ChangeStreamRef.name)))
  else if column.is_deleted then
    .ok []
  else if ¬(column.id = old_column.id) then
    .error .internal
  else if column.table.is_deleted then
    .error .internal
  else
    match column.dependent_columns.find? DepColumn.is_deleted with
    | some dep =>
      .error (.invalidDropColumnReferencedByGeneratedColumn dep.name
        column.table.name column.name)
    | none =>
      if column.is_generated ∧ ¬old_column.is_generated then
        .error (.cannotConvertRegularColumnToGeneratedColumn
          column.table.name column.name)
      else if ¬column.is_generated ∧ old_column.is_generated then
        .error (.cannotConvertGeneratedColumnToRegularColumn
          column.table.name column.name)
      else if column.is_generated ∧ old_column.is_generated ∧
          ¬(column.type = old_column.type) then
        .error (.cannotAlterStoredGeneratedColumnDataType
          column.table.name column.name)
      else if column.is_generated ∧ old_column.is_generated ∧
          ¬(column.expression.getD "" = old_column.expression.getD "") then
        .error (.cannotAlterGeneratedColumnExpression
          column.table.name column.name)
      else if column.is_generated ∧ old_column.is_generated ∧
          ¬(column.is_stored = old_column.is_stored) then
        .error (.cannotAlterGeneratedColumnStoredAttribute
          column.table.name column.name)
      else if ¬(column.type = old_column.type) ∧
          column.table.columns.any (fun g =>
            g.is_generated && g.dependent_column_ids.contains column.id) then
        .error (.cannotAlterColumnDataTypeWithDependentStoredGeneratedColumn
          column.name)
      else
        match checkSourceColumn column with
        | .error e => .error e
        | .ok _ =>
          let actions :=
            if old_column.is_nullable ∧ ¬column.is_nullable then
              [DeferredAction.verifyColumnNotNull column.table.name column.name]
            else []
          match CheckAllowedColumnTypeChange old_column column
              old_column.type column.type with
          | .error e => .error e
          | .ok type_actions =>
            let actions := actions ++ type_actions
            let actions :=
              if column.type.isTimestamp ∧ column.allows_commit_timestamp ∧
                  ¬old_column.allows_commit_timestamp then
                actions ++ [DeferredAction.verifyColumnCommitTimestamp
                  column.table.name column.name]
              else actions
            match column.sequences_used.find? SequenceRef.is_deleted with
            | some dependency =>
              .error (.invalidDropSequenceWithColumnDependents dependency.name
                column.FullName)
            | none => .ok actions

/-- A `KeyColumn` schema node: the underlying column, the key ordering flag
(`is_descending_`) and the deletion marker. -/
structure KeyColumn where
  column : Column
  is_descending : Bool
  is_deleted : Bool
deriving DecidableEq, Repr

/-- The slice of `SchemaValidationContext` consulted by
`KeyColumnValidator::ValidateUpdate`: which node ids differ between the old
and the new schema generation. -/
structure SchemaValidationContext where
  modified_node_ids : List String
deriving DecidableEq, Repr

/-- Embeds `SchemaValidationContext::IsModifiedNode`, keyed by node id. -/
def SchemaValidationContext.IsModifiedNode (context : SchemaValidationContext)
    (id : String) : Bool :=
  context.modified_node_ids.contains id

/-- The child-table-side interleaving test of
`KeyColumnValidator::ValidateUpdate`: the enclosing table has a parent and
`parent->FindColumn(column->Name())` finds a column. -/
def parentSharesColumn (column : Column) : Bool :=
  match column.table.parent_columns with
  | some parent_column_names => parent_column_names.contains column.name
  | none => false

/-- The parent-table-side interleaving test of
`KeyColumnValidator::ValidateUpdate`: some child table's
`FindKeyColumn(column->Name())` finds a key column. -/
def childHasKeyColumn (column : Column) : Bool :=
  column.table.children_key_columns.any (fun child_keys =>
    child_keys.contains column.name)

/-- The interleaved-key-alteration check of
`KeyColumnValidator::ValidateUpdate`: when the underlying column is a modified
node and the commit-timestamp option is unchanged between the old and new
column, reject if the table's parent shares the column (child side) or a
child table keys on it (parent side). -/
def KeyColumnValidator.interleaveCheck (column : Column)
    (old_key_column : KeyColumn) (context : SchemaValidationContext) :
    Except SchemaError Unit :=
  if context.IsModifiedNode column.id then
    let is_commit_timestamp_option_change :=
      column.allows_commit_timestamp !=
        old_key_column.column.allows_commit_timestamp
    if ¬is_commit_timestamp_option_change then
      -- If the key column is a child table column.
      if parentSharesColumn column then
        .error (.alteringParentColumn column.FullName)
      -- If the key column is a parent table column.
      else if childHasKeyColumn column then
        .error (.cannotChangeKeyColumnWithChildTables column.FullName)
      else .ok ()
    else .ok ()
  else .ok ()

/-- Embeds `KeyColumnValidator::ValidateUpdate` from `column_validator.cc`: a deleted
key column is accepted outright; otherwise the interleaved-key-alteration
check runs, then the underlying column must not be deleted and the descending
flag must be unchanged (`ZETASQL_RET_CHECK`s). -/
def KeyColumnValidator.ValidateUpdate (key_column old_key_column : KeyColumn)
    (context : SchemaValidationContext) : Except SchemaError Unit :=
  if key_column.is_deleted then
    .ok ()
  else
    match KeyColumnValidator.interleaveCheck key_column.column old_key_column
        context with
    | .error e => .error e
    | .ok _ =>
      if key_column.column.is_deleted then .error .internal
      else if ¬(key_column.is_descending = old_key_column.is_descending) then
        .error .internal
      else .ok ()

/-- The special sub-catalogs resolvable through `Catalog::GetCatalog`. -/
inductive SubCatalog where
  | informationSchema
  | pgInformationSchema
  | spannerSys
  | netFunctions
  | pgFunctions
  | pgCatalog
deriving DecidableEq, Repr

/-- ASCII lower-casing of one character (`absl::ascii_tolower`). -/
def asciiLowerChar (c : Char) : Char :=
  if 'A' ≤ c ∧ c ≤ 'Z' then Char.ofNat (c.toNat + 32) else c

/-- Embeds `absl::EqualsIgnoreCase`: ASCII case-insensitive string equality. -/
def EqualsIgnoreCase (a b : String) : Bool :=
  a.data.map asciiLowerChar == b.data.map asciiLowerChar

/-- Modelled from the spec: `InformationSchemaCatalog::kName` (header not
among the provided sources); the information-schema sub-catalog name, matched
case-insensitively. -/
def kInformationSchemaName : String := "INFORMATION_SCHEMA"

/-- Modelled from the spec: `InformationSchemaCatalog::kPGName` (header not
among the provided sources); the PostgreSQL-dialect information-schema
sub-catalog name, matched case-insensitively. -/
def kPGInformationSchemaName : String := "PG_INFORMATION_SCHEMA"

/-- Modelled from the spec: `SpannerSysCatalog::kName` (header not among the
provided sources); the system-catalog sub-catalog name, matched
case-insensitively. -/
def kSpannerSysName : String := "SPANNER_SYS"

/-- Embeds `NetCatalog::kName` from `catalog.cc`. -/
def kNetCatalogName : String := "NET"

/-- Embeds `PGFunctionCatalog::kName` from `catalog.cc`. -/
def kPGFunctionCatalogName : String := "PG"

/-- Modelled from the spec: `postgres_translator::PGCatalog::kName` (header
not among the provided sources); the pg_catalog sub-catalog name, matched
case-insensitively. -/
def kPGCatalogName : String := "pg_catalog"

/-- An `absl::Status` as produced by the catalog lookups: OK or a named
error. -/
inductive Status where
  | ok
  | error (e : SchemaError)
deriving DecidableEq, Repr

/-- Embeds `Catalog::GetCatalog` from `catalog.cc`: matches the requested name
case-insensitively against the six special sub-catalog names, writing the
matching sub-catalog through the output pointer; an unrecognized name leaves
the output untouched; the returned status is OK in every case. The output
pointer's incoming value is the second argument, its outgoing value the second
component of the result. -/
def Catalog.GetCatalog (name : String) (catalog : Option SubCatalog) :
    Status × Option SubCatalog :=
  if EqualsIgnoreCase name kInformationSchemaName then
    (.ok, some .informationSchema)
  else if EqualsIgnoreCase name kPGInformationSchemaName then
    (.ok, some .pgInformationSchema)
  else if EqualsIgnoreCase name kSpannerSysName then
    (.ok, some .spannerSys)
  else if EqualsIgnoreCase name kNetCatalogName then
    (.ok, some .netFunctions)
  else if EqualsIgnoreCase name kPGFunctionCatalogName then
    (.ok, some .pgFunctions)
  else if EqualsIgnoreCase name kPGCatalogName then
    (.ok, some .pgCatalog)
  else
    (.ok, catalog)

/-- A table-like object resolved by `Catalog::GetTable`: a view or a table,
looked up by exact name in the corresponding map. -/
inductive FoundTable where
  | view (name : String)
  | table (name : String)
deriving DecidableEq, Repr

/-- The name maps (`views_`, `tables_`) of a query `Catalog`. -/
structure CatalogState where
  views : List String
  tables : List String
deriving DecidableEq, Repr

/-- Embeds `Catalog::GetTable` from `catalog.cc`: the output is first cleared, then
views are consulted before tables (both by exact name); an unknown name yields
a table-not-found error. -/
def Catalog.GetTable (c : CatalogState) (name : String) :
    Status × Option FoundTable :=
  if c.views.contains name then (.ok, some (.view name))
  else if c.tables.contains name then (.ok, some (.table name))
  else (.error (.tableNotFound name), none)

/-- A plain table fixture used to instantiate the validators on concrete
inputs. -/
def testTable : TableInfo :=
  { name := "Users", is_deleted := false, row_deletion_policy_column := none,
    parent_columns := none, children_key_columns := [], owner_index := none,
    columns := [] }

/-- A plain STRING(MAX) column of `testTable`. -/
def testColumn : Column :=
  { id := "c1", name := "Name", type := .string, declared_max_length := none,
    is_nullable := true, is_generated := false, expression := none,
    is_stored := false, allows_commit_timestamp := false, is_deleted := false,
    table := testTable, source_column := none, dependent_columns := [],
    change_streams_explicitly_tracking_column := [], sequences_used := [] }

/-- Fixture: `testColumn` altered to BYTES. -/
def testBytesColumn : Column := { testColumn with type := .bytes }

/-- Fixture: `testColumn` declared STRING(20). -/
def testString20Column : Column :=
  { testColumn with declared_max_length := some 20 }

/-- Fixture: `testColumn` declared STRING(10). -/
def testString10Column : Column :=
  { testColumn with declared_max_length := some 10 }

/-- A dropped column record as seen through `dependent_columns()`. -/
def testDeletedDep : DepColumn :=
  { id := "c9", name := "G", is_deleted := true,
    allows_commit_timestamp := false }

/-- A surviving generated column whose expression references the dropped
column `testDeletedDep`. -/
def testGenColumn : Column :=
  { testColumn with
    id := "c2"
    name := "G2"
    is_generated := true
    expression := some "G+1"
    dependent_columns := [testDeletedDep] }

/-- Fixture: `testColumn` marked deleted (a dropped column). -/
def testDeletedColumn : Column := { testColumn with is_deleted := true }

/-- A dropped sequence record as seen through `sequences_used()`. -/
def testDeletedSequence : SequenceRef := { name := "seq", is_deleted := true }

/-- A surviving column that still lists the dropped sequence
`testDeletedSequence`. -/
def testSeqColumn : Column :=
  { testColumn with sequences_used := [testDeletedSequence] }

/-- An ascending key column over `testColumn`. -/
def testKeyColumnAsc : KeyColumn :=
  { column := testColumn, is_descending := false, is_deleted := false }

/-- A descending key column over `testColumn`. -/
def testKeyColumnDesc : KeyColumn :=
  { column := testColumn, is_descending := true, is_deleted := false }

/-- A deleted key column over `testColumn`. -/
def testKeyColumnDeleted : KeyColumn :=
  { column := testColumn, is_descending := false, is_deleted := true }

/-- A validation context in which no node is modified. -/
def emptyContext : SchemaValidationContext := { modified_node_ids := [] }

/-- A child table interleaved in a parent that has a column named `UserId`. -/
def interleavedChildTable : TableInfo :=
  { name := "Orders", is_deleted := false, row_deletion_policy_column := none,
    parent_columns := some ["UserId"], children_key_columns := [],
    owner_index := none, columns := [] }

/-- New generation of the shared key column `UserId` of
`interleavedChildTable`: type changed STRING→BYTES and the commit-timestamp
option toggled on in the same alteration. -/
def interleavedNewColumn : Column :=
  { id := "c_uid", name := "UserId", type := .bytes,
    declared_max_length := none, is_nullable := false, is_generated := false,
    expression := none, is_stored := false, allows_commit_timestamp := true,
    is_deleted := false, table := interleavedChildTable, source_column := none,
    dependent_columns := [], change_streams_explicitly_tracking_column := [],
    sequences_used := [] }

/-- Old generation of `interleavedNewColumn`: STRING, commit-timestamp off. -/
def interleavedOldColumn : Column :=
  { interleavedNewColumn with
    type := .string
    allows_commit_timestamp := false }

/-- New generation of `interleavedNewColumn` with the commit-timestamp option
left unchanged (off), so only the type changed. -/
def interleavedNewColumnNoCtsChange : Column :=
  { interleavedNewColumn with allows_commit_timestamp := false }

/-- Key column over `interleavedNewColumn`. -/
def interleavedNewKeyColumn : KeyColumn :=
  { column := interleavedNewColumn, is_descending := false,
    is_deleted := false }

/-- Key column over `interleavedNewColumnNoCtsChange`. -/
def interleavedNewKeyColumnNoCts : KeyColumn :=
  { column := interleavedNewColumnNoCtsChange, is_descending := false,
    is_deleted := false }

/-- Key column over `interleavedOldColumn` (old generation). -/
def interleavedOldKeyColumn : KeyColumn :=
  { column := interleavedOldColumn, is_descending := false,
    is_deleted := false }

/-- A validation context in which the column `c_uid` is a modified node. -/
def interleavedContext : SchemaValidationContext :=
  { modified_node_ids := ["c_uid"] }

theorem isAllowedTypeChange_refl (t : ZType) : IsAllowedTypeChange t t = true := by
  cases t <;> simp [IsAllowedTypeChange]

theorem isAllowedTypeChange_symm (o n : ZType) :
    IsAllowedTypeChange o n = IsAllowedTypeChange n o := by
  induction o generalizing n with
  | array a ih =>
    cases n with
    | array b =>
      by_cases h : a = b
      · subst h; rfl
      · have h2 : ¬ b = a := fun hb => h hb.symm
        simp [IsAllowedTypeChange, h, h2, ih b]
    | string => simp [IsAllowedTypeChange]
    | bytes => simp [IsAllowedTypeChange]
    | int64 => simp [IsAllowedTypeChange]
    | bool => simp [IsAllowedTypeChange]
    | timestamp => simp [IsAllowedTypeChange]
    | float64 => simp [IsAllowedTypeChange]
    | date => simp [IsAllowedTypeChange]
    | numeric => simp [IsAllowedTypeChange]
    | json => simp [IsAllowedTypeChange]
    | proto p => simp [IsAllowedTypeChange]
    | enum e => simp [IsAllowedTypeChange]
  | string => cases n <;> simp [IsAllowedTypeChange]
  | bytes => cases n <;> simp [IsAllowedTypeChange]
  | int64 => cases n <;> simp [IsAllowedTypeChange]
  | bool => cases n <;> simp [IsAllowedTypeChange]
  | timestamp => cases n <;> simp [IsAllowedTypeChange]
  | float64 => cases n <;> simp [IsAllowedTypeChange]
  | date => cases n <;> simp [IsAllowedTypeChange]
  | numeric => cases n <;> simp [IsAllowedTypeChange]
  | json => cases n <;> simp [IsAllowedTypeChange]
  | proto p => cases n <;> simp [IsAllowedTypeChange]
  | enum e => cases n <;> simp [IsAllowedTypeChange]

/-- C2: `IsAllowedTypeChange` is reflexive; STRING↔BYTES are both allowed;
INT64→BOOL is not; and for non-array (scalar) types, the only non-identical
pairs accepted are STRING↔BYTES, PROTO↔BYTES, PROTO↔PROTO, ENUM↔ENUM and
ENUM↔INT64 (both directions). -/
theorem c2_scalar_type_change_rules :
    (∀ t : ZType, IsAllowedTypeChange t t = true) ∧
    IsAllowedTypeChange .string .bytes = true ∧
    IsAllowedTypeChange .bytes .string = true ∧
    IsAllowedTypeChange .int64 .bool = false ∧
    (∀ o n : ZType, o.isArray = false → n.isArray = false → o ≠ n →
      (IsAllowedTypeChange o n = true ↔
        ((o.isString && n.isBytes) || (o.isBytes && n.isString) ||
         (o.isProto && n.isBytes) || (o.isBytes && n.isProto) ||
         (o.isProto && n.isProto) || (o.isEnum && n.isEnum) ||
         (o.isEnum && n.isInt64) || (o.isInt64 && n.isEnum)) = true)) := by
  refine ⟨isAllowedTypeChange_refl, by decide, by decide, by decide, ?_⟩
  intro o n ho hn hne
  cases o <;> cases n <;>
    simp_all [IsAllowedTypeChange, ZType.isArray, ZType.isString, ZType.isBytes,
      ZType.isProto, ZType.isEnum, ZType.isInt64]

/-- Witness for C2: the scalar-pair characterisation applied at
(STRING, BYTES). -/
theorem c2_scalar_type_change_rules_witness :
    IsAllowedTypeChange ZType.string ZType.bytes = true ↔
      ((ZType.string.isString && ZType.bytes.isBytes) ||
       (ZType.string.isBytes && ZType.bytes.isString) ||
       (ZType.string.isProto && ZType.bytes.isBytes) ||
       (ZType.string.isBytes && ZType.bytes.isProto) ||
       (ZType.string.isProto && ZType.bytes.isProto) ||
       (ZType.string.isEnum && ZType.bytes.isEnum) ||
       (ZType.string.isEnum && ZType.bytes.isInt64) ||
       (ZType.string.isInt64 && ZType.bytes.isEnum)) = true :=
  c2_scalar_type_change_rules.2.2.2.2 ZType.string ZType.bytes rfl rfl (by decide)

/-- C3: changing ARRAY<A> to ARRAY<B> is allowed exactly when changing A to B
is, and array↔non-array changes are never allowed. -/
theorem c3_array_type_change_rules :
    (∀ A B : ZType,
      IsAllowedTypeChange (.array A) (.array B) = IsAllowedTypeChange A B) ∧
    (∀ A B : ZType, B.isArray = false →
      IsAllowedTypeChange (.array A) B = false ∧
      IsAllowedTypeChange B (.array A) = false) := by
  constructor
  · intro A B
    by_cases h : A = B
    · subst h; simp [IsAllowedTypeChange, isAllowedTypeChange_refl]
    · simp [IsAllowedTypeChange, h]
  · intro A B hB
    cases B <;> simp_all [IsAllowedTypeChange, ZType.isArray]

/-- Witness for C3: the array/non-array part at (ARRAY<STRING>, BYTES). -/
theorem c3_array_type_change_rules_witness :
    IsAllowedTypeChange (ZType.array .string) .bytes = false ∧
    IsAllowedTypeChange .bytes (ZType.array .string) = false :=
  c3_array_type_change_rules.2 ZType.string ZType.bytes rfl

/-- C9: `IsAllowedTypeChange` is symmetric. -/
theorem c9_type_change_symmetric (o n : ZType) :
    IsAllowedTypeChange o n = IsAllowedTypeChange n o :=
  isAllowedTypeChange_symm o n

/-- C4: for an allowed type change whose old and new base types differ,
`CheckAllowedColumnTypeChange` registers exactly two deferred actions: the
value-compatibility verification first, the value-rewrite backfill second
(actions run in registration order). -/
theorem c4_type_change_registers_verify_then_backfill
    (old_column new_column : Column)
    (h_allowed : IsAllowedTypeChange old_column.type new_column.type = true)
    (h_base : ¬(BaseType new_column.type = BaseType old_column.type)) :
    CheckAllowedColumnTypeChange old_column new_column old_column.type
        new_column.type =
      .ok [.verifyColumnTypeChange old_column.name new_column.name,
           .backfillColumnValue old_column.name new_column.name] := by
  simp [CheckAllowedColumnTypeChange, h_allowed, h_base]

/-- Witness for C4: a STRING→BYTES alteration registers the verification
followed by the backfill. -/
theorem c4_witness :
    CheckAllowedColumnTypeChange testColumn testBytesColumn testColumn.type
        testBytesColumn.type =
      .ok [.verifyColumnTypeChange testColumn.name testBytesColumn.name,
           .backfillColumnValue testColumn.name testBytesColumn.name] :=
  c4_type_change_registers_verify_then_backfill testColumn testBytesColumn
    (by decide) (by decide)

/-- C5: shrinking a STRING(N) column to STRING(M), M<N, registers exactly one
deferred length-verification action; growing it (N<M) registers none. -/
theorem c5_string_shrink_registers_length_verification
    (old_column new_column : Column) (N M : Nat)
    (h_old_type : old_column.type = .string)
    (h_new_type : new_column.type = .string)
    (h_old_len : old_column.declared_max_length = some N)
    (h_new_len : new_column.declared_max_length = some M) :
    (M < N →
      CheckAllowedColumnTypeChange old_column new_column old_column.type
          new_column.type =
        .ok [.verifyColumnLength old_column.table.name old_column.name M]) ∧
    (N < M →
      CheckAllowedColumnTypeChange old_column new_column old_column.type
          new_column.type = .ok []) := by
  constructor
  · intro h_lt
    simp [CheckAllowedColumnTypeChange, h_old_type, h_new_type,
      IsAllowedTypeChange, BaseType, IsResizeable, Column.effective_max_length,
      h_old_len, h_new_len, h_lt]
  · intro h_lt
    have h_not : ¬ M < N := Nat.lt_asymm h_lt
    simp [CheckAllowedColumnTypeChange, h_old_type, h_new_type,
      IsAllowedTypeChange, BaseType, IsResizeable, Column.effective_max_length,
      h_old_len, h_new_len, h_not]

/-- Witness for C5: STRING(20)→STRING(10) registers the single length
verification at the new bound. -/
theorem c5_witness :
    CheckAllowedColumnTypeChange testString20Column testString10Column
        testString20Column.type testString10Column.type =
      .ok [.verifyColumnLength testString20Column.table.name
        testString20Column.name 10] :=
  (c5_string_shrink_registers_length_verification testString20Column
    testString10Column 20 10 rfl rfl rfl rfl).1 (by decide)

theorem validateUpdate_deleted_ok (column old_column : Column)
    (h_rdp : hasRowDeletionPolicyOn column.table column.name = false)
    (h_cs : column.change_streams_explicitly_tracking_column = [])
    (h_del : column.is_deleted = true) :
    ColumnValidator.ValidateUpdate column old_column = .ok [] := by
  simp [ColumnValidator.ValidateUpdate, h_rdp, h_cs, h_del]

/-- C6: validating a surviving column whose generated expression references a
dropped column fails with the dependency error; a dropped column (no change
stream tracking it, no row-deletion policy targeting it) passes validation
outright, so dropping referrer and referee together succeeds. -/
theorem c6_drop_referenced_column_blocked :
    (∀ column old_column : Column,
      hasRowDeletionPolicyOn column.table column.name = false →
      column.is_deleted = false →
      column.id = old_column.id →
      column.table.is_deleted = false →
      column.is_generated = true →
      (∃ dep ∈ column.dependent_columns, dep.is_deleted = true) →
      ∃ depName, ColumnValidator.ValidateUpdate column old_column =
        .error (.invalidDropColumnReferencedByGeneratedColumn depName
          column.table.name column.name)) ∧
    (∀ column old_column : Column,
      column.is_deleted = true →
      hasRowDeletionPolicyOn column.table column.name = false →
      column.change_streams_explicitly_tracking_column = [] →
      ColumnValidator.ValidateUpdate column old_column = .ok []) := by
  constructor
  · intro column old_column h_rdp h_del h_id h_tbl h_gen h_dep
    obtain ⟨dep, h_mem, h_dep_del⟩ := h_dep
    have h_some : (column.dependent_columns.find? DepColumn.is_deleted).isSome := by
      rw [List.find?_isSome]
      exact ⟨dep, h_mem, h_dep_del⟩
    obtain ⟨d, hd⟩ := Option.isSome_iff_exists.mp h_some
    exact ⟨d.name,
      by simp [ColumnValidator.ValidateUpdate, h_rdp, h_del, h_id, h_tbl, hd]⟩
  · intro column old_column h_del h_rdp h_cs
    exact validateUpdate_deleted_ok column old_column h_rdp h_cs h_del

/-- Witness for C6: the surviving generated column `G2` referencing the
dropped column `G` is rejected; the dropped plain column passes. -/
theorem c6_witness :
    (∃ depName, ColumnValidator.ValidateUpdate testGenColumn testGenColumn =
      .error (.invalidDropColumnReferencedByGeneratedColumn depName
        testGenColumn.table.name testGenColumn.name)) ∧
    ColumnValidator.ValidateUpdate testDeletedColumn testDeletedColumn =
      .ok [] :=
  ⟨c6_drop_referenced_column_blocked.1 testGenColumn testGenColumn rfl rfl rfl
      rfl rfl ⟨testDeletedDep, by decide, rfl⟩,
   c6_drop_referenced_column_blocked.2 testDeletedColumn testDeletedColumn rfl
      rfl rfl⟩

theorem checkAllowedColumnTypeChange_ok_of_type_eq
    (old_column new_column : Column)
    (h : new_column.type = old_column.type) :
    ∃ acts, CheckAllowedColumnTypeChange old_column new_column
      old_column.type new_column.type = .ok acts := by
  rw [h]
  simp only [CheckAllowedColumnTypeChange, isAllowedTypeChange_refl,
    not_true_eq_false, if_false, if_pos rfl]
  by_cases hc : IsResizeable (BaseType old_column.type) = true ∧
      new_column.effective_max_length < old_column.effective_max_length
  · exact ⟨_, if_pos hc⟩
  · exact ⟨_, if_neg hc⟩

/-- C7: a surviving column that still lists a dropped sequence in
`sequences_used()` fails validation with the drop-sequence-with-dependents
error (the other transition checks passing); a dropped column (no change
stream tracking it, no row-deletion policy targeting it) passes validation
outright, so dropping the column first and the sequence second succeeds. -/
theorem c7_drop_sequence_with_dependents_blocked :
    (∀ column old_column : Column,
      hasRowDeletionPolicyOn column.table column.name = false →
      column.is_deleted = false →
      column.id = old_column.id →
      column.table.is_deleted = false →
      (∀ dep ∈ column.dependent_columns, dep.is_deleted = false) →
      column.is_generated = false →
      old_column.is_generated = false →
      column.type = old_column.type →
      column.source_column = none →
      (∃ s ∈ column.sequences_used, s.is_deleted = true) →
      ∃ seqName, ColumnValidator.ValidateUpdate column old_column =
        .error (.invalidDropSequenceWithColumnDependents seqName
          column.FullName)) ∧
    (∀ column old_column : Column,
      column.is_deleted = true →
      hasRowDeletionPolicyOn column.table column.name = false →
      column.change_streams_explicitly_tracking_column = [] →
      ColumnValidator.ValidateUpdate column old_column = .ok []) := by
  constructor
  · intro column old_column h_rdp h_del h_id h_tbl h_deps h_gen h_ogen h_type
      h_src h_seq
    have h_dep_none :
        column.dependent_columns.find? DepColumn.is_deleted = none := by
      rw [List.find?_eq_none]
      intro x hx
      simp [h_deps x hx]
    obtain ⟨s, h_mem, h_s_del⟩ := h_seq
    have h_some : (column.sequences_used.find? SequenceRef.is_deleted).isSome := by
      rw [List.find?_isSome]
      exact ⟨s, h_mem, h_s_del⟩
    obtain ⟨d, hd⟩ := Option.isSome_iff_exists.mp h_some
    obtain ⟨acts, h_acts⟩ :=
      checkAllowedColumnTypeChange_ok_of_type_eq old_column column h_type
    rw [h_type] at h_acts
    exact ⟨d.name,
      by simp [ColumnValidator.ValidateUpdate, h_rdp, h_del, h_id, h_tbl,
        h_dep_none, h_gen, h_ogen, h_type, checkSourceColumn, h_src, h_acts,
        hd]⟩
  · intro column old_column h_del h_rdp h_cs
    exact validateUpdate_deleted_ok column old_column h_rdp h_cs h_del

/-- Witness for C7: the surviving column listing the dropped sequence `seq`
is rejected; the dropped plain column passes. -/
theorem c7_witness :
    (∃ seqName, ColumnValidator.ValidateUpdate testSeqColumn testSeqColumn =
      .error (.invalidDropSequenceWithColumnDependents seqName
        testSeqColumn.FullName)) ∧
    ColumnValidator.ValidateUpdate testDeletedColumn
      { testDeletedColumn with sequences_used := [testDeletedSequence] } =
      .ok [] :=
  ⟨c7_drop_sequence_with_dependents_blocked.1 testSeqColumn testSeqColumn rfl
      rfl rfl rfl (by decide) rfl rfl rfl rfl
      ⟨testDeletedSequence, by decide, rfl⟩,
   c7_drop_sequence_with_dependents_blocked.2 testDeletedColumn
      { testDeletedColumn with sequences_used := [testDeletedSequence] } rfl
      rfl rfl⟩

/-- C8: a non-deleted key column whose descending flag differs between the
old and new generation never passes `KeyColumnValidator::ValidateUpdate`;
a deleted key column is always accepted with no further checks. -/
theorem c8_descending_flag_immutable (key_column old_key_column : KeyColumn)
    (context : SchemaValidationContext) :
    (key_column.is_deleted = false →
      ¬(key_column.is_descending = old_key_column.is_descending) →
      ∃ e, KeyColumnValidator.ValidateUpdate key_column old_key_column
        context = .error e) ∧
    (key_column.is_deleted = true →
      KeyColumnValidator.ValidateUpdate key_column old_key_column context =
        .ok ()) := by
  constructor
  · intro h_del h_desc
    cases hic : KeyColumnValidator.interleaveCheck key_column.column
        old_key_column context with
    | error e =>
      exact ⟨e, by simp [KeyColumnValidator.ValidateUpdate, h_del, hic]⟩
    | ok u =>
      by_cases h_cd : key_column.column.is_deleted = true
      · exact ⟨.internal,
          by simp [KeyColumnValidator.ValidateUpdate, h_del, hic, h_cd]⟩
      · exact ⟨.internal,
          by simp [KeyColumnValidator.ValidateUpdate, h_del, hic, h_cd,
            h_desc]⟩
  · intro h_del
    simp [KeyColumnValidator.ValidateUpdate, h_del]

/-- Witness for C8: old=ASC, new=DESC over the same column fails; the deleted
key column is accepted. -/
theorem c8_witness :
    (∃ e, KeyColumnValidator.ValidateUpdate testKeyColumnDesc testKeyColumnAsc
      emptyContext = .error e) ∧
    KeyColumnValidator.ValidateUpdate testKeyColumnDeleted testKeyColumnDeleted
      emptyContext = .ok () :=
  ⟨(c8_descending_flag_immutable testKeyColumnDesc testKeyColumnAsc
      emptyContext).1 rfl (by decide),
   (c8_descending_flag_immutable testKeyColumnDeleted testKeyColumnDeleted
      emptyContext).2 rfl⟩

/-- C1 counterexample: a key column of an interleaved child table whose
underlying column is a modified node, whose modification changes both the
type (STRING→BYTES) and the commit-timestamp option — so it is not solely a
commit-timestamp-option toggle — and whose parent shares the column, is
nevertheless accepted by `KeyColumnValidator::ValidateUpdate`: the code
exempts any update in which the commit-timestamp flag differs, not only
flag-only updates. -/
theorem c1_counterexample :
    interleavedNewKeyColumn.is_deleted = false ∧
    interleavedContext.IsModifiedNode interleavedNewKeyColumn.column.id =
      true ∧
    interleavedNewKeyColumn.column.type ≠
      interleavedOldKeyColumn.column.type ∧
    parentSharesColumn interleavedNewKeyColumn.column = true ∧
    KeyColumnValidator.ValidateUpdate interleavedNewKeyColumn
      interleavedOldKeyColumn interleavedContext = .ok () := by
  refine ⟨rfl, by decide, by decide, by decide, rfl⟩

/-- C1 (amended): for a non-deleted key column whose underlying column is a
modified node, `KeyColumnValidator::ValidateUpdate` rejects the update when
the commit-timestamp flag is *unchanged* between the old and new column and
the column participates in an interleaving (parent shares the column, or a
child keys on it); whenever the commit-timestamp flag differs — even if other
attributes changed in the same alteration — the interleaving rejection is
skipped entirely. -/
theorem c1_amended_interleaved_key_exemption
    (kc okc : KeyColumn) (context : SchemaValidationContext) :
    (kc.is_deleted = false →
      context.IsModifiedNode kc.column.id = true →
      kc.column.allows_commit_timestamp = okc.column.allows_commit_timestamp →
      parentSharesColumn kc.column = true →
      KeyColumnValidator.ValidateUpdate kc okc context =
        .error (.alteringParentColumn kc.column.FullName)) ∧
    (kc.is_deleted = false →
      context.IsModifiedNode kc.column.id = true →
      kc.column.allows_commit_timestamp = okc.column.allows_commit_timestamp →
      parentSharesColumn kc.column = false →
      childHasKeyColumn kc.column = true →
      KeyColumnValidator.ValidateUpdate kc okc context =
        .error (.cannotChangeKeyColumnWithChildTables kc.column.FullName)) ∧
    (kc.is_deleted = false →
      ¬(kc.column.allows_commit_timestamp =
        okc.column.allows_commit_timestamp) →
      kc.column.is_deleted = false →
      kc.is_descending = okc.is_descending →
      KeyColumnValidator.ValidateUpdate kc okc context = .ok ()) := by
  refine ⟨?_, ?_, ?_⟩
  · intro h_del h_mod h_cts h_parent
    have hic : KeyColumnValidator.interleaveCheck kc.column okc context =
        .error (.alteringParentColumn kc.column.FullName) := by
      simp [KeyColumnValidator.interleaveCheck, h_mod, h_cts, h_parent]
    simp [KeyColumnValidator.ValidateUpdate, h_del, hic]
  · intro h_del h_mod h_cts h_parent h_child
    have hic : KeyColumnValidator.interleaveCheck kc.column okc context =
        .error (.cannotChangeKeyColumnWithChildTables kc.column.FullName) := by
      simp [KeyColumnValidator.interleaveCheck, h_mod, h_cts, h_parent,
        h_child]
    simp [KeyColumnValidator.ValidateUpdate, h_del, hic]
  · intro h_del h_cts h_cd h_desc
    have hic : KeyColumnValidator.interleaveCheck kc.column okc context =
        .ok () := by
      simp [KeyColumnValidator.interleaveCheck, h_cts]
    simp [KeyColumnValidator.ValidateUpdate, h_del, hic, h_cd, h_desc]

/-- Witness for the amended C1: with the commit-timestamp flag unchanged, the
same STRING→BYTES alteration of the shared interleaved key column is
rejected. -/
theorem c1_amended_witness :
    KeyColumnValidator.ValidateUpdate interleavedNewKeyColumnNoCts
      interleavedOldKeyColumn interleavedContext =
      .error (.alteringParentColumn
        interleavedNewKeyColumnNoCts.column.FullName) :=
  (c1_amended_interleaved_key_exemption interleavedNewKeyColumnNoCts
    interleavedOldKeyColumn interleavedContext).1 rfl (by decide) rfl
    (by decide)

/-- C10: `Catalog::GetCatalog` returns an OK status on every input; each
special sub-catalog name is matched case-insensitively and sets the output
catalog; an unrecognized name produces no error and leaves the output
unmodified. -/
theorem c10_get_catalog_total (name : String) (catalog : Option SubCatalog) :
    (Catalog.GetCatalog name catalog).1 = .ok ∧
    (EqualsIgnoreCase name kInformationSchemaName = true →
      (Catalog.GetCatalog name catalog).2 = some .informationSchema) ∧
    (EqualsIgnoreCase name kPGInformationSchemaName = true →
      (Catalog.GetCatalog name catalog).2 = some .pgInformationSchema) ∧
    (EqualsIgnoreCase name kSpannerSysName = true →
      (Catalog.GetCatalog name catalog).2 = some .spannerSys) ∧
    (EqualsIgnoreCase name kNetCatalogName = true →
      (Catalog.GetCatalog name catalog).2 = some .netFunctions) ∧
    (EqualsIgnoreCase name kPGFunctionCatalogName = true →
      (Catalog.GetCatalog name catalog).2 = some .pgFunctions) ∧
    (EqualsIgnoreCase name kPGCatalogName = true →
      (Catalog.GetCatalog name catalog).2 = some .pgCatalog) ∧
    (EqualsIgnoreCase name kInformationSchemaName = false →
      EqualsIgnoreCase name kPGInformationSchemaName = false →
      EqualsIgnoreCase name kSpannerSysName = false →
      EqualsIgnoreCase name kNetCatalogName = false →
      EqualsIgnoreCase name kPGFunctionCatalogName = false →
      EqualsIgnoreCase name kPGCatalogName = false →
      Catalog.GetCatalog name catalog = (.ok, catalog)) := by
  refine ⟨?_, ?_, ?_, ?_, ?_, ?_, ?_, ?_⟩
  · unfold Catalog.GetCatalog
    repeat' split
    all_goals rfl
  · intro h
    simp only [EqualsIgnoreCase, beq_iff_eq] at h
    simp only [Catalog.GetCatalog, EqualsIgnoreCase]
    simp only [h]
    rfl
  · intro h
    simp only [EqualsIgnoreCase, beq_iff_eq] at h
    simp only [Catalog.GetCatalog, EqualsIgnoreCase]
    simp only [h]
    rfl
  · intro h
    simp only [EqualsIgnoreCase, beq_iff_eq] at h
    simp only [Catalog.GetCatalog, EqualsIgnoreCase]
    simp only [h]
    rfl
  · intro h
    simp only [EqualsIgnoreCase, beq_iff_eq] at h
    simp only [Catalog.GetCatalog, EqualsIgnoreCase]
    simp only [h]
    rfl
  · intro h
    simp only [EqualsIgnoreCase, beq_iff_eq] at h
    simp only [Catalog.GetCatalog, EqualsIgnoreCase]
    simp only [h]
    rfl
  · intro h
    simp only [EqualsIgnoreCase, beq_iff_eq] at h
    simp only [Catalog.GetCatalog, EqualsIgnoreCase]
    simp only [h]
    rfl
  · intro h1 h2 h3 h4 h5 h6
    simp [Catalog.GetCatalog, h1, h2, h3, h4, h5, h6]

/-- Witness for C10: a mixed-case information-schema lookup resolves, and an
unknown name keeps the pre-set output and an OK status. -/
theorem c10_witness :
    (Catalog.GetCatalog "Information_Schema" none).2 =
      some SubCatalog.informationSchema ∧
    Catalog.GetCatalog "Foo" (some SubCatalog.pgCatalog) =
      (.ok, some SubCatalog.pgCatalog) :=
  ⟨(c10_get_catalog_total "Information_Schema" none).2.1 (by decide),
   (c10_get_catalog_total "Foo" (some SubCatalog.pgCatalog)).2.2.2.2.2.2.2
     (by decide) (by decide) (by decide) (by decide) (by decide) (by decide)⟩

end SpannerEmulator
